import Mathlib

/-!
Verification development for the profile page of the sports-betting web app
(`src/sports-betting/src/app/profile/page.tsx`), shallowly embedded in Lean.

JavaScript numbers are modelled by `JSNum` (NaN or a rational; the component
never produces infinities).  Firestore documents are modelled by a `DB` of
fetch functions, each returning `Except Unit (Option doc)`: `.error` is a
thrown network/backend error, `.ok none` a present fetch whose document does
not exist, `.ok (some d)` an existing document.  React `useState` cells are
modelled by explicit state records passed in and returned.
-/

/-- A JavaScript number: NaN or a rational value. -/
inductive JSNum where
  | nan : JSNum
  | num : ℚ → JSNum
deriving DecidableEq, Repr

namespace JSNum

/-- JS addition: NaN is absorbing, otherwise rational addition. -/
def add : JSNum → JSNum → JSNum
  | num a, num b => num (a + b)
  | _, _ => nan

/-- The JS `isNaN` test. -/
def isNaN : JSNum → Bool
  | nan => true
  | num _ => false

/-- JS comparison `a <= b`: any comparison involving NaN is false. -/
def jsLe : JSNum → JSNum → Bool
  | num a, num b => decide (a ≤ b)
  | _, _ => false

end JSNum

/-- One team inside an event document (`home_team` / `visitor_team`). -/
structure Team where
  full_name : String
  abbreviation : String
deriving DecidableEq, Repr

/-- An event document (`events/{id}` in Firestore), per the `Event` type used
by the page. -/
structure Event where
  home_team : Team
  visitor_team : Team
deriving DecidableEq, Repr

/-- The `selectedTeam` field of a trade: `'home' | 'visitor'`. -/
inductive SelectedTeam where
  | home : SelectedTeam
  | visitor : SelectedTeam
deriving DecidableEq, Repr

/-- A trade document as stored (`trades/{id}`), i.e. `Omit<Trade, 'id'>` with
no `event` yet.  `createdAt` is the `Timestamp` modelled by its epoch-millis
value (`createdAt.toDate().getTime()`). -/
structure TradeData where
  amount : JSNum
  expectedPayout : JSNum
  createdAt : Int
  eventId : String
  selectedTeam : SelectedTeam
  status : String
  userId : String
deriving DecidableEq, Repr

/-- The in-memory `Trade` interface of the page: the stored fields plus the
document id and the optionally resolved event. -/
structure Trade extends TradeData where
  id : String
  event : Option Event
deriving DecidableEq, Repr

/-- The `UserData` interface (`users/{uid}` document).  Both fields are
optional in the model because the code guards them with `|| 0` / `|| []`. -/
structure UserData where
  trades : Option (List String)
  walletBalance : Option JSNum
deriving DecidableEq, Repr

/-- The document database seen by the page: each fetch either throws
(`.error`), finds no document (`.ok none`) or returns one (`.ok (some d)`). -/
structure DB where
  users : String → Except Unit (Option UserData)
  tradesCol : String → Except Unit (Option TradeData)
  events : String → Except Unit (Option Event)

/-- The `userData.walletBalance || 0` guard: a missing field, NaN or 0 all
read as 0 (JS falsiness). -/
def orZero : Option JSNum → JSNum
  | none => JSNum.num 0
  | some JSNum.nan => JSNum.num 0
  | some (JSNum.num q) => JSNum.num q

/-- The `userData.trades || []` guard. -/
def orNil : Option (List String) → List String
  | none => []
  | some l => l

/-- The page-level React state touched by the loader: `trades`, `loading`,
`walletBalance`. -/
structure PageState where
  trades : List Trade
  loading : Bool
  walletBalance : JSNum
deriving DecidableEq, Repr

/-- The body of the trade-fetch loop in `fetchUserData` (lines 186–216):
for each id, fetch the trade document; if it exists, fetch its event (a
missing event leaves `event` as `undefined`) and append the assembled trade;
if the trade document is missing, skip the id.  A thrown fetch aborts the
whole loop (propagated through `Except`). -/
def fetchTradesLoop (db : DB) : List String → Except Unit (List Trade)
  | [] => Except.ok []
  | tradeId :: rest =>
    match db.tradesCol tradeId with
    | Except.error e => Except.error e
    | Except.ok none => fetchTradesLoop db rest
    | Except.ok (some tradeData) =>
      match db.events tradeData.eventId with
      | Except.error e => Except.error e
      | Except.ok eventData =>
        match fetchTradesLoop db rest with
        | Except.error e => Except.error e
        | Except.ok tail =>
          Except.ok ({ toTradeData := tradeData, id := tradeId, event := eventData } :: tail)

/-- The descending-by-`createdAt` comparison used by the sort at line 220
(`(a, b) => b.createdAt.toDate().getTime() - a.createdAt.toDate().getTime()`). -/
def createdDesc (a b : Trade) : Prop := b.createdAt ≤ a.createdAt

instance : DecidableRel createdDesc := fun a b => by
  unfold createdDesc; infer_instance

instance : IsTotal Trade createdDesc :=
  ⟨fun a b => le_total b.createdAt a.createdAt⟩

instance : IsTrans Trade createdDesc :=
  ⟨fun _ _ _ hab hbc => le_trans hbc hab⟩

/-- `tradesData.sort(...)` with the descending comparator: a sort consistent
with the comparator (the spec leaves tie order unspecified). -/
def sortTradesDesc (l : List Trade) : List Trade :=
  List.insertionSort createdDesc l

/-- The loader `fetchUserData` (lines 162–227) as a state transformer on the
page state, for one load cycle with the given identity.  The `try`/`catch`
swallows thrown errors; `finally` always ends the loading state. -/
def fetchUserData (db : DB) (user : Option String) (s : PageState) : PageState :=
  match user with
  | none => { s with loading := false }
  | some uid =>
    match db.users uid with
    | Except.error _ => { s with loading := false }
    | Except.ok none => { s with loading := false }
    | Except.ok (some userData) =>
      let s1 := { s with walletBalance := orZero userData.walletBalance }
      match fetchTradesLoop db (orNil userData.trades) with
      | Except.error _ => { s1 with loading := false }
      | Except.ok tradesData =>
        { s1 with trades := sortTradesDesc tradesData, loading := false }

/-- Whether a trade id resolves to an existing trade document in this DB. -/
def resolves (db : DB) (tradeId : String) : Bool :=
  match db.tradesCol tradeId with
  | Except.ok (some _) => true
  | _ => false

/-- The view the page renders (lines 260–290): sign-in prompt when no user,
loading skeleton while loading, otherwise the main profile view. -/
inductive View where
  | signInPrompt : View
  | loadingSkeleton : View
  | mainView : View
deriving DecidableEq, Repr

/-- `ProfilePage`'s top-level render dispatch. -/
def renderView (user : Option String) (loading : Bool) : View :=
  match user with
  | none => View.signInPrompt
  | some _ => if loading then View.loadingSkeleton else View.mainView

/-- The team label rendered for a trade (lines 373–379): the selected team's
full name when the event resolved, otherwise the fallback string. -/
def teamLabel (t : Trade) : String :=
  match t.event with
  | some e =>
    match t.selectedTeam with
    | SelectedTeam.home => e.home_team.full_name
    | SelectedTeam.visitor => e.visitor_team.full_name
  | none => "Unknown Team"

/-- Whether the logo block is rendered for a trade (line 360:
`{trade.event && (...)}` — no event means no logo block at all). -/
def rendersLogo (t : Trade) : Bool := t.event.isSome

/-- Count of won trades shown in the record badge (line 317:
`trades.filter(t => t.status === 'won').length`). -/
def wonCount (trades : List Trade) : Nat :=
  (trades.filter (fun t => t.status == "won")).length

/-- Count of lost trades shown in the record badge (line 321). -/
def lostCount (trades : List Trade) : Nat :=
  (trades.filter (fun t => t.status == "lost")).length

/-- Digit prefix of a character list, with the remainder. -/
def takeDigits : List Char → List Char × List Char
  | [] => ([], [])
  | c :: cs =>
    if c.isDigit then
      let (ds, rest) := takeDigits cs
      (c :: ds, rest)
    else ([], c :: cs)

/-- Value of a digit string. -/
def digitsToNat (ds : List Char) : Nat :=
  ds.foldl (fun acc c => 10 * acc + (c.toNat - 48)) 0

/-- JS `parseFloat` restricted to the inputs this component can see: an
optional sign followed by decimal digits with an optional fraction part
(the dialog's input control only produces such strings).  No digits at all
parses to NaN. -/
def parseFloat (s : String) : JSNum :=
  let (neg, cs) :=
    match s.data with
    | '-' :: rest => (true, rest)
    | '+' :: rest => (false, rest)
    | cs => (false, cs)
  let (intDs, cs1) := takeDigits cs
  let fracDs :=
    match cs1 with
    | '.' :: rest => (takeDigits rest).1
    | _ => []
  if intDs.isEmpty && fracDs.isEmpty then JSNum.nan
  else
    let q : ℚ := (digitsToNat intDs : ℚ) + (digitsToNat fracDs : ℚ) / ((10 : ℚ) ^ fracDs.length)
    JSNum.num (if neg then -q else q)

/-- The `AddFundsModal`'s local state: the entered `amount` text, the
`isLoading` (submitting) flag, the inline `error` message, plus whether the
dialog is open (caller-controlled via `isOpen`/`onClose`). -/
structure ModalState where
  amount : String
  isLoading : Bool
  dialogError : String
  isOpen : Bool
deriving DecidableEq, Repr

/-- Result of one submit: the modal state afterwards and the list of amounts
with which `onAddFunds` was invoked during the submit. -/
structure SubmitOutcome where
  state : ModalState
  calls : List JSNum
deriving Repr

/-- The modal's `handleSubmit` (lines 77–99).  `onAddFunds` is the
caller-supplied persistence callback; its `Except` result is success or a
rejected promise.  Validation: `isNaN(numAmount) || numAmount <= 0` shows
the inline message and never invokes the callback.  On success the dialog
closes and the input clears; on rejection it shows the generic failure
message and keeps the entered text.  `finally` clears `isLoading`. -/
def handleSubmit (onAddFunds : JSNum → Except Unit Unit) (s : ModalState) : SubmitOutcome :=
  let s0 := { s with dialogError := "", isLoading := true }
  let numAmount := parseFloat s0.amount
  if numAmount.isNaN || numAmount.jsLe (JSNum.num 0) then
    { state := { s0 with dialogError := "Please enter a valid amount", isLoading := false },
      calls := [] }
  else
    match onAddFunds numAmount with
    | Except.ok _ =>
      let s1 := { s0 with isOpen := false, amount := "", isLoading := false }
      { state := s1, calls := [numAmount] }
    | Except.error _ =>
      let s1 := { s0 with dialogError := "Failed to add funds. Please try again.", isLoading := false }
      { state := s1, calls := [numAmount] }

/-- Result of one `handleAddFunds` call: whether it returned or threw, the
balance value passed to `updateDoc` (if a write was attempted), and the
in-memory `walletBalance` afterwards. -/
structure AddFundsOutcome where
  result : Except Unit Unit
  writeAttempt : Option JSNum
  walletBalance : JSNum
deriving Repr

/-- The page's `handleAddFunds` (lines 232–257).  Throws immediately when no
user is present.  Otherwise computes `newBalance = walletBalance + amount`
from the in-memory balance, persists it via `updateDoc` (modelled by the
`updateDoc` function argument), and on success mirrors it in memory; a
persistence error is re-thrown and leaves the in-memory balance untouched. -/
def handleAddFunds (user : Option String) (walletBalance : JSNum)
    (updateDoc : JSNum → Except Unit Unit) (amount : JSNum) : AddFundsOutcome :=
  match user with
  | none => { result := Except.error (), writeAttempt := none, walletBalance := walletBalance }
  | some _ =>
    let newBalance := walletBalance.add amount
    match updateDoc newBalance with
    | Except.ok _ =>
      { result := Except.ok (), writeAttempt := some newBalance, walletBalance := newBalance }
    | Except.error e =>
      { result := Except.error e, writeAttempt := some newBalance, walletBalance := walletBalance }

/-- A fixed stored trade used by concrete scenarios below. -/
def sampleTradeData : TradeData :=
  { amount := JSNum.num 10, expectedPayout := JSNum.num 20, createdAt := 100,
    eventId := "e1", selectedTeam := SelectedTeam.home, status := "pending", userId := "u" }

/-- `sampleTradeData` assembled with an id and an unresolved event. -/
def sampleTrade : Trade :=
  { toTradeData := sampleTradeData, id := "t0", event := none }

/-- A trade with the given id, creation time and status; the remaining fields
are fixed and irrelevant to sorting and counting. -/
def tradeAt (id : String) (createdAt : Int) (status : String) : Trade :=
  { amount := JSNum.num 10, expectedPayout := JSNum.num 20, createdAt := createdAt,
    eventId := "e1", selectedTeam := SelectedTeam.home, status := status, userId := "u",
    id := id, event := none }

/-- The initial page state (lines 150–152): no trades, loading, balance 0. -/
def initialState : PageState :=
  { trades := [], loading := true, walletBalance := JSNum.num 0 }

/-- A mid-session page state holding one trade and a nonzero balance. -/
def staleState : PageState :=
  { trades := [sampleTrade], loading := true, walletBalance := JSNum.num 7 }

/-- A database where the user record exists (balance 5, one trade id) but
every trade fetch throws. -/
def errDB : DB :=
  { users := fun _ =>
      Except.ok (some { trades := some ["t1"], walletBalance := some (JSNum.num 5) }),
    tradesCol := fun _ => Except.error (),
    events := fun _ => Except.ok none }

/-- A database where the user lists two trade ids, of which only `"t1"`
resolves to an existing trade document, and no event document exists. -/
def joinDB : DB :=
  { users := fun _ =>
      Except.ok (some { trades := some ["t1", "tX"], walletBalance := some (JSNum.num 3) }),
    tradesCol := fun i => if i = "t1" then Except.ok (some sampleTradeData) else Except.ok none,
    events := fun _ => Except.ok none }

/-- The ids of an assembled trade list are exactly the ids that resolved. -/
theorem fetchTradesLoop_map_id (db : DB) :
    ∀ (ids : List String) (l : List Trade), fetchTradesLoop db ids = Except.ok l →
      l.map Trade.id = List.filter (fun i => resolves db i) ids := by
  intro ids
  induction ids with
  | nil =>
    intro l h
    simp only [fetchTradesLoop, Except.ok.injEq] at h
    simp [← h]
  | cons i rest ih =>
    intro l h
    simp only [fetchTradesLoop] at h
    cases htc : db.tradesCol i with
    | error e => simp [htc] at h
    | ok tradeDoc =>
      simp only [htc] at h
      cases tradeDoc with
      | none =>
        simp only [List.filter_cons, resolves, htc]
        exact ih l h
      | some td =>
        cases hev : db.events td.eventId with
        | error e => simp [hev] at h
        | ok ev =>
          simp only [hev] at h
          cases hrest : fetchTradesLoop db rest with
          | error e => simp [hrest] at h
          | ok tail =>
            simp only [hrest, Except.ok.injEq] at h
            subst h
            have hres : resolves db i = true := by simp [resolves, htc]
            rw [List.map_cons, ih tail hrest, List.filter_cons]
            simp [hres]

/-- The sort is a permutation of its input. -/
theorem sortTradesDesc_perm (l : List Trade) : (sortTradesDesc l).Perm l :=
  List.perm_insertionSort createdDesc l

/-- Evaluation of `parseFloat` on the dialog inputs used below. -/
theorem parseFloat_eval_2550 : parseFloat "25.50" = JSNum.num (51 / 2) := by
  simp [parseFloat, takeDigits, digitsToNat, String.data]
  norm_num

theorem parseFloat_eval_neg5 : parseFloat "-5" = JSNum.num (-5) := by
  simp [parseFloat, takeDigits, digitsToNat, String.data]

theorem parseFloat_eval_abc : parseFloat "abc" = JSNum.nan := by
  simp [parseFloat, takeDigits, digitsToNat, String.data]

theorem parseFloat_eval_50 : parseFloat "50" = JSNum.num 50 := by
  simp [parseFloat, takeDigits, digitsToNat, String.data]

/-- C1. The claim is false as stated: when the user record was fetched
successfully and a later trade fetch throws, the cycle aborts with the
published wallet balance already updated.  Here the trade fetch for `"t1"`
throws, yet the balance moved from 0 to the fetched 5. -/
theorem tradeFetchError_balance_already_published :
    errDB.tradesCol "t1" = Except.error () ∧
    (fetchUserData errDB (some "u") initialState).loading = false ∧
    (fetchUserData errDB (some "u") initialState).trades = initialState.trades ∧
    (fetchUserData errDB (some "u") initialState).walletBalance ≠ initialState.walletBalance := by
  refine ⟨rfl, ?_, ?_, ?_⟩ <;>
    simp [fetchUserData, errDB, initialState, fetchTradesLoop, orNil, orZero]

/-- C1 (amended): a fetch error during the user-record fetch aborts the cycle,
ends loading, and leaves both trades and balance at their prior values; a
fetch error during the trade/event loop aborts the cycle and ends loading
with trades at their prior value, but the wallet balance has already been
updated to the fetched account's value. -/
theorem fetchUserData_fetch_error_semantics (db : DB) (uid : String) (s : PageState) :
    (db.users uid = Except.error () →
      fetchUserData db (some uid) s = { s with loading := false }) ∧
    (∀ u : UserData, db.users uid = Except.ok (some u) →
      fetchTradesLoop db (orNil u.trades) = Except.error () →
      fetchUserData db (some uid) s =
        { trades := s.trades, loading := false, walletBalance := orZero u.walletBalance }) := by
  constructor
  · intro h
    simp [fetchUserData, h]
  · intro u hu ht
    simp [fetchUserData, hu, ht]

theorem fetchUserData_fetch_error_semantics_witness :
    fetchUserData errDB (some "u") initialState =
      { trades := initialState.trades, loading := false, walletBalance := JSNum.num 5 } := by
  have h := (fetchUserData_fetch_error_semantics errDB "u" initialState).2
    { trades := some ["t1"], walletBalance := some (JSNum.num 5) } rfl rfl
  exact h

/-- C2. The claim is false as stated: with no identity, the loader leaves the
previously published trades and balance untouched (it only ends loading), so
from a stale state the list is not emptied and the balance is not reset. -/
theorem noIdentity_keeps_stale_values :
    (fetchUserData errDB none staleState).trades ≠ [] ∧
    (fetchUserData errDB none staleState).walletBalance ≠ JSNum.num 0 := by
  constructor
  · simp [fetchUserData, staleState]
  · simp [fetchUserData, staleState]

/-- C2 (amended): with no identity present the loader only ends the loading
state and performs no fetches (its result does not depend on the database);
trades and balance keep their previous in-memory values, and the page
renders the sign-in prompt. -/
theorem fetchUserData_no_identity (db : DB) (s : PageState) :
    fetchUserData db none s = { s with loading := false } ∧
    (∀ db2 : DB, fetchUserData db none s = fetchUserData db2 none s) ∧
    (∀ b : Bool, renderView none b = View.signInPrompt) :=
  ⟨rfl, fun _ => rfl, fun _ => rfl⟩

/-- C3: `handleAddFunds` returns successfully exactly when an identity is
present and the persistence write of `currentBalance + amount` succeeds; on
success the written and in-memory balances are both `currentBalance + amount`
(computed from the in-memory balance), and on any failure the error is
re-thrown to the caller with the in-memory balance unchanged. -/
theorem handleAddFunds_contract (user : Option String) (bal : JSNum)
    (upd : JSNum → Except Unit Unit) (amt : JSNum) :
    ((handleAddFunds user bal upd amt).result = Except.ok () ↔
      (user.isSome = true ∧ upd (bal.add amt) = Except.ok ())) ∧
    ((handleAddFunds user bal upd amt).result = Except.ok () →
      (handleAddFunds user bal upd amt).writeAttempt = some (bal.add amt) ∧
      (handleAddFunds user bal upd amt).walletBalance = bal.add amt) ∧
    ((handleAddFunds user bal upd amt).result = Except.error () →
      (handleAddFunds user bal upd amt).walletBalance = bal) := by
  cases user with
  | none => simp [handleAddFunds]
  | some uid =>
    cases h : upd (bal.add amt) with
    | error e => simp [handleAddFunds, h]
    | ok v => simp [handleAddFunds, h]

theorem handleAddFunds_contract_witness :
    (handleAddFunds (some "u") (JSNum.num 100) (fun _ => Except.ok ()) (JSNum.num 50)).walletBalance
      = JSNum.num 150 := by
  have h := (handleAddFunds_contract (some "u") (JSNum.num 100)
      (fun _ => Except.ok ()) (JSNum.num 50)).2.1 rfl
  rw [h.2]
  show JSNum.num (100 + 50) = JSNum.num 150
  norm_num

/-- C4: on submit, when the parsed amount is NaN or ≤ 0 the dialog shows
"Please enter a valid amount" and never invokes the persistence callback;
otherwise the callback is invoked exactly once with the parsed amount, with
no upper bound checked. -/
theorem handleSubmit_validation (cb : JSNum → Except Unit Unit) (s : ModalState) :
    (((parseFloat s.amount).isNaN || (parseFloat s.amount).jsLe (JSNum.num 0)) = true →
      (handleSubmit cb s).state.dialogError = "Please enter a valid amount" ∧
      (handleSubmit cb s).calls = []) ∧
    (((parseFloat s.amount).isNaN || (parseFloat s.amount).jsLe (JSNum.num 0)) = false →
      (handleSubmit cb s).calls = [parseFloat s.amount]) := by
  constructor
  · intro h
    simp [handleSubmit, h]
  · intro h
    cases hc : cb (parseFloat s.amount) with
    | error e => simp [handleSubmit, h, hc]
    | ok v => simp [handleSubmit, h, hc]

theorem handleSubmit_validation_witness :
    (handleSubmit (fun _ => Except.ok ())
        { amount := "25.50", isLoading := false, dialogError := "", isOpen := true }).calls
      = [JSNum.num (51 / 2)] ∧
    (handleSubmit (fun _ => Except.ok ())
        { amount := "-5", isLoading := false, dialogError := "", isOpen := true }).calls = [] := by
  constructor
  · have h := (handleSubmit_validation (fun _ => Except.ok ())
        { amount := "25.50", isLoading := false, dialogError := "", isOpen := true }).2
    rw [show ({ amount := "25.50", isLoading := false, dialogError := "", isOpen := true } :
        ModalState).amount = "25.50" from rfl, parseFloat_eval_2550] at h
    refine (h ?_).trans (by norm_num)
    simp [JSNum.isNaN, JSNum.jsLe]
  · have h := (handleSubmit_validation (fun _ => Except.ok ())
        { amount := "-5", isLoading := false, dialogError := "", isOpen := true }).1
    rw [show ({ amount := "-5", isLoading := false, dialogError := "", isOpen := true } :
        ModalState).amount = "-5" from rfl, parseFloat_eval_neg5] at h
    refine (h ?_).2
    simp [JSNum.isNaN, JSNum.jsLe]

/-- C5: for a submit whose amount parses as valid, if the add-funds callback
rejects, the dialog shows "Failed to add funds. Please try again.", stays
open, leaves the submitting state and keeps the entered text; if the
callback succeeds, the input is cleared and the dialog closes. -/
theorem handleSubmit_failure_keeps_amount (cb : JSNum → Except Unit Unit) (s : ModalState)
    (hvalid : ((parseFloat s.amount).isNaN || (parseFloat s.amount).jsLe (JSNum.num 0)) = false) :
    (cb (parseFloat s.amount) = Except.error () →
      (handleSubmit cb s).state.dialogError = "Failed to add funds. Please try again." ∧
      (handleSubmit cb s).state.isOpen = s.isOpen ∧
      (handleSubmit cb s).state.isLoading = false ∧
      (handleSubmit cb s).state.amount = s.amount) ∧
    (cb (parseFloat s.amount) = Except.ok () →
      (handleSubmit cb s).state.amount = "" ∧
      (handleSubmit cb s).state.isOpen = false ∧
      (handleSubmit cb s).state.isLoading = false) := by
  constructor
  · intro hc
    simp [handleSubmit, hvalid, hc]
  · intro hc
    simp [handleSubmit, hvalid, hc]

theorem handleSubmit_failure_keeps_amount_witness :
    (handleSubmit (fun _ => Except.error ())
        { amount := "50", isLoading := false, dialogError := "", isOpen := true }).state.amount
      = "50" ∧
    (handleSubmit (fun _ => Except.error ())
        { amount := "50", isLoading := false, dialogError := "", isOpen := true }).state.isOpen
      = true := by
  have h := (handleSubmit_failure_keeps_amount (fun _ => Except.error ())
      { amount := "50", isLoading := false, dialogError := "", isOpen := true }
      (by rw [show ({ amount := "50", isLoading := false, dialogError := "", isOpen := true } :
          ModalState).amount = "50" from rfl, parseFloat_eval_50]
          simp [JSNum.isNaN, JSNum.jsLe])).1 rfl
  exact ⟨h.2.2.2, h.2.1⟩

/-- C6: on a successful load cycle, the ids of the published trades are
exactly (as a multiset) the account's trade ids that resolve to an existing
trade document, and the published list length equals the count of
resolvable ids: dangling ids are silently dropped. -/
theorem published_trades_are_resolvable_ids (db : DB) (uid : String) (s : PageState)
    (u : UserData) (l : List Trade)
    (hu : db.users uid = Except.ok (some u))
    (hl : fetchTradesLoop db (orNil u.trades) = Except.ok l) :
    ((fetchUserData db (some uid) s).trades.map Trade.id).Perm
      (List.filter (fun i => resolves db i) (orNil u.trades)) ∧
    (fetchUserData db (some uid) s).trades.length =
      (List.filter (fun i => resolves db i) (orNil u.trades)).length := by
  have hmap := fetchTradesLoop_map_id db (orNil u.trades) l hl
  have hfetch : (fetchUserData db (some uid) s).trades = sortTradesDesc l := by
    simp [fetchUserData, hu, hl]
  constructor
  · rw [hfetch, ← hmap]
    exact (sortTradesDesc_perm l).map Trade.id
  · rw [hfetch, ← hmap, List.length_map]
    exact (sortTradesDesc_perm l).length_eq

theorem published_trades_are_resolvable_ids_witness :
    (fetchUserData joinDB (some "u") initialState).trades.length = 1 := by
  have h := (published_trades_are_resolvable_ids joinDB "u" initialState
      { trades := some ["t1", "tX"], walletBalance := some (JSNum.num 3) }
      [{ toTradeData := sampleTradeData, id := "t1", event := none }]
      rfl (by simp [fetchTradesLoop, joinDB, orNil])).2
  rw [h]
  simp [resolves, joinDB, orNil]

/-- C7: a resolved trade whose event fetch finds no document is still
assembled into the list with `event = none`; such an entry renders the
fallback label "Unknown Team" and no logo block, and the win/loss counters
still count it according to its own status. -/
theorem missing_event_renders_fallback (db : DB) (i : String) (td : TradeData)
    (ht : db.tradesCol i = Except.ok (some td))
    (he : db.events td.eventId = Except.ok none) :
    fetchTradesLoop db [i] = Except.ok [{ toTradeData := td, id := i, event := none }] ∧
    teamLabel { toTradeData := td, id := i, event := none } = "Unknown Team" ∧
    rendersLogo { toTradeData := td, id := i, event := none } = false ∧
    (∀ pre post : List Trade,
      wonCount (pre ++ { toTradeData := td, id := i, event := none } :: post) =
        wonCount (pre ++ post) + (if td.status == "won" then 1 else 0) ∧
      lostCount (pre ++ { toTradeData := td, id := i, event := none } :: post) =
        lostCount (pre ++ post) + (if td.status == "lost" then 1 else 0)) := by
  refine ⟨?_, rfl, rfl, ?_⟩
  · simp [fetchTradesLoop, ht, he]
  · intro pre post
    constructor
    · simp only [wonCount, List.filter_append, List.filter_cons, List.length_append]
      cases hst : td.status == "won" <;> simp [hst]
      try omega
    · simp only [lostCount, List.filter_append, List.filter_cons, List.length_append]
      cases hst : td.status == "lost" <;> simp [hst]
      try omega

theorem missing_event_renders_fallback_witness :
    fetchTradesLoop joinDB ["t1"] =
      Except.ok [{ toTradeData := sampleTradeData, id := "t1", event := none }] ∧
    teamLabel { toTradeData := sampleTradeData, id := "t1", event := none } = "Unknown Team" ∧
    rendersLogo { toTradeData := sampleTradeData, id := "t1", event := none } = false := by
  have h := missing_event_renders_fallback joinDB "t1" sampleTradeData
    (by simp [joinDB]) rfl
  exact ⟨h.1, h.2.1, h.2.2.1⟩

/-- C8: the published order is a permutation of the assembled trades sorted
descending by `createdAt`; concretely, creation times [T-3, T-1, T-2] come
out in the order [T-1, T-2, T-3]. -/
theorem sortTradesDesc_newest_first (l : List Trade) :
    (sortTradesDesc l).Perm l ∧
    List.Sorted createdDesc (sortTradesDesc l) ∧
    sortTradesDesc
        [tradeAt "a" (-3) "pending", tradeAt "b" (-1) "pending", tradeAt "c" (-2) "pending"] =
      [tradeAt "b" (-1) "pending", tradeAt "c" (-2) "pending", tradeAt "a" (-3) "pending"] := by
  refine ⟨sortTradesDesc_perm l, ?_, ?_⟩
  · exact List.sorted_insertionSort createdDesc l
  · rfl

/-- C9: the displayed record is the pair (number of entries with status
"won", number with status "lost"); any other status is counted in neither;
statuses [won, won, lost, pending] display as 2W - 1L. -/
theorem winLoss_record_spec (l : List Trade) :
    wonCount l = l.countP (fun t => t.status == "won") ∧
    lostCount l = l.countP (fun t => t.status == "lost") ∧
    (∀ (t : Trade) (l2 : List Trade), t.status ≠ "won" → t.status ≠ "lost" →
      wonCount (t :: l2) = wonCount l2 ∧ lostCount (t :: l2) = lostCount l2) ∧
    wonCount [tradeAt "a" 0 "won", tradeAt "b" 1 "won",
              tradeAt "c" 2 "lost", tradeAt "d" 3 "pending"] = 2 ∧
    lostCount [tradeAt "a" 0 "won", tradeAt "b" 1 "won",
               tradeAt "c" 2 "lost", tradeAt "d" 3 "pending"] = 1 := by
  refine ⟨?_, ?_, ?_, ?_, ?_⟩
  · simp [wonCount, List.countP_eq_length_filter]
  · simp [lostCount, List.countP_eq_length_filter]
  · intro t l2 hw hl
    constructor
    · simp [wonCount, List.filter_cons, hw]
    · simp [lostCount, List.filter_cons, hl]
  · simp [wonCount, tradeAt]
  · simp [lostCount, tradeAt]

theorem winLoss_record_spec_witness :
    wonCount [tradeAt "d" 3 "pending"] = wonCount [] ∧
    lostCount [tradeAt "d" 3 "pending"] = lostCount [] := by
  have h := (winLoss_record_spec []).2.2.1 (tradeAt "d" 3 "pending") []
    (by simp [tradeAt]) (by simp [tradeAt])
  exact h

/-- C10 (implicit): `handleAddFunds` itself validates nothing — with an
identity present it attempts the write of `walletBalance + amount` for every
amount, negative, zero or NaN alike, and mirrors it in memory when the write
succeeds; so a caller bypassing the dialog's submit check can drive the
balance negative or to NaN. -/
theorem handleAddFunds_no_validation (uid : String) (bal amt : JSNum)
    (upd : JSNum → Except Unit Unit) :
    ((handleAddFunds (some uid) bal upd amt).writeAttempt = some (bal.add amt) ∧
     (upd (bal.add amt) = Except.ok () →
       (handleAddFunds (some uid) bal upd amt).walletBalance = bal.add amt)) ∧
    (handleAddFunds (some uid) (JSNum.num 5) (fun _ => Except.ok ())
        (JSNum.num (-10))).walletBalance = JSNum.num (-5) ∧
    (handleAddFunds (some uid) (JSNum.num 5) (fun _ => Except.ok ())
        JSNum.nan).walletBalance = JSNum.nan := by
  refine ⟨?_, ?_, ?_⟩
  · cases h : upd (bal.add amt) with
    | error e => simp [handleAddFunds, h]
    | ok v => simp [handleAddFunds, h]
  · show JSNum.num (5 + (-10)) = JSNum.num (-5)
    norm_num
  · rfl

theorem handleAddFunds_no_validation_witness :
    (handleAddFunds (some "u") (JSNum.num 5) (fun _ => Except.ok ())
        (JSNum.num (-10))).walletBalance = JSNum.num (-5) := by
  have h := ((handleAddFunds_no_validation "u" (JSNum.num 5) (JSNum.num (-10))
      (fun _ => Except.ok ())).1).2 rfl
  rw [h]
  show JSNum.num (5 + (-10)) = JSNum.num (-5)
  norm_num
